import Mathlib

/-!
InnSight review-analysis pipeline: shallow embedding.

Embedding of the asynchronous review-analysis pipeline of the InnSight
repository:

* `src/ai_worker/ai_analyzer.py` — `SentimentAnalyzer.analyze`
* `src/ai_worker/worker.py` — `callback`, `process_review`, `publish_result`
* `src/backend/app/queue_publisher.py` — `ReviewQueuePublisher`
* `src/backend/app/result_consumer.py` — `callback`, `update_review_with_results`
* `src/backend/app/models/review.py` — `Review`, `ReviewStatus`

JSON field values are modelled by `JVal`; Python floats are modelled by `ℚ`
(all scores produced by the pipeline are exact multiples of 1/10, which are
exactly representable as doubles, so the rational model agrees with the
float computation after the 3-decimal rounding applied by the source).
An exception escaping a Python call is modelled by `Except.error ()`.
External failure points (the broker publish, the database commit) are
modelled by boolean oracles passed to the embedded functions.
-/

namespace InnSight

/-- A JSON scalar value as it appears in a message field or a stored column.
`jnull` is Python `None`. -/
inductive JVal
  | jnull
  | jint (n : ℤ)
  | jrat (q : ℚ)
  | jstr (s : String)
  deriving DecidableEq, Repr

/-- A decoded JSON object, as an association list of its fields. -/
abbrev Payload := List (String × JVal)

/-- Python `dict.get(k)`: the value at key `k`, or `None` when absent. -/
def pget (p : Payload) (k : String) : JVal :=
  (List.lookup k p).getD JVal.jnull

/-- Python `round` on a rational: round half to even (banker's rounding). -/
def pyRoundInt (x : ℚ) : ℤ :=
  if Int.fract x < 1/2 then ⌊x⌋
  else if 1/2 < Int.fract x then ⌈x⌉
  else if ⌊x⌋ % 2 = 0 then ⌊x⌋ else ⌈x⌉

/-- Python `round(x, 3)`. -/
def round3 (x : ℚ) : ℚ := (pyRoundInt (x * 1000) : ℚ) / 1000

/-! ## Sentiment analyzer (`src/ai_worker/ai_analyzer.py`) -/

/-- Outcome of one call of the external transformer pipeline
(`self.analyzer(text_truncated)[0]`): the model's 5-class label, or an
internal error raised by the engine. -/
inductive EngineOutcome
  | ok (label : String)
  | err
  deriving DecidableEq, Repr

/-- The value returned by `SentimentAnalyzer.analyze`. -/
structure SentimentResult where
  sentiment_score : ℚ
  sentiment_label : String
  deriving DecidableEq, Repr

/-- `label_to_score.get(result['label'], 0.0)`: the 5-class label map with
default `0.0` for an unknown label. -/
def label_to_score (label : String) : ℚ :=
  if label = "1 star" then -1
  else if label = "2 stars" then -(1/2)
  else if label = "3 stars" then 0
  else if label = "4 stars" then 1/2
  else if label = "5 stars" then 1
  else 0

/-- The threshold labelling applied to the blended score:
`> 0.3` positive, `< -0.3` negative, otherwise neutral. -/
def labelOf (s : ℚ) : String :=
  if s > 3/10 then "positive"
  else if s < -(3/10) then "negative"
  else "neutral"

/-- The label of the rating-only fallback branch:
`"positive" if rating >= 4 else "negative" if rating <= 2 else "neutral"`. -/
def ratingFallbackLabel (rq : ℚ) : String :=
  if rq ≥ 4 then "positive"
  else if rq ≤ 2 then "negative"
  else "neutral"

/-- Python arithmetic `(rating - 3) / 2` is defined when `rating` is a
number and raises `TypeError` otherwise. -/
def ratingNum : JVal → Option ℚ
  | .jint n => some (n : ℚ)
  | .jrat q => some q
  | _ => none

/-- `SentimentAnalyzer.analyze(text, rating)`.

The try-branch maps the model label onto `[-1, 1]`, blends it with the
rating as `model_score * 0.6 + rating_score * 0.4`, rounds to 3 decimals
and thresholds the (unrounded) blended score.  If the engine call raises,
the except-branch falls back to the rating-only score.  When `rating` is
not a number, `(rating - 3) / 2` in the try-branch raises `TypeError`,
the except-branch recomputes it and raises again, so the exception
escapes the call (`Except.error ()`). -/
def analyze (text : String) (rating : JVal) (engine : String → EngineOutcome) :
    Except Unit SentimentResult :=
  match engine (text.take 512), ratingNum rating with
  | .ok lbl, some rq =>
      let model_score := label_to_score lbl
      let rating_score := (rq - 3) / 2
      let final_score := model_score * (6/10) + rating_score * (4/10)
      .ok { sentiment_score := round3 final_score, sentiment_label := labelOf final_score }
  | .ok _, none => .error ()
  | .err, some rq =>
      let rating_score := (rq - 3) / 2
      .ok { sentiment_score := round3 rating_score, sentiment_label := ratingFallbackLabel rq }
  | .err, none => .error ()

/-! ## Analysis worker (`src/ai_worker/worker.py`) -/

/-- The terminal disposition a consumer issues for a delivered message. -/
inductive Disposition
  | ack
  | nackRequeue
  | nackDrop
  deriving DecidableEq, Repr

/-- The body of a message delivered to the worker:
not valid JSON (`json.loads` raises), valid JSON that is not an object
(`review_data.get` raises `AttributeError`), or a JSON object with the
four fields the worker extracts. -/
inductive WBody
  | malformed
  | nonDict (v : JVal)
  | dict (review_id title content rating : JVal)
  deriving DecidableEq, Repr

/-- `worker.process_review(review_data)` with field values already
extracted.  Everything after the extraction runs inside a `try` whose
`except` returns `False`:

* the log line `content[:100]` raises `TypeError` when `content` is not
  subscriptable (caught, `False`);
* `analyzer.analyze` raising an exception is caught (`False`);
* `publish_result` reports failure as a boolean, modelled by the
  `publishOk` oracle. -/
def process_review (review_id title content rating : JVal)
    (engine : String → EngineOutcome) (publishOk : Bool) : Bool :=
  match content with
  | .jstr text =>
      match analyze text rating engine with
      | .ok _ => publishOk
      | .error _ => false
  | _ => false

/-- `worker.callback`: `json.loads` failure and the `AttributeError`
raised by field extraction on a non-object body both escape to the
callback's `except`, which nacks without requeue; otherwise the boolean
result of `process_review` selects ack or nack with requeue. -/
def worker_callback (body : WBody) (engine : String → EngineOutcome)
    (publishOk : Bool) : Disposition :=
  match body with
  | .malformed => .nackDrop
  | .nonDict _ => .nackDrop
  | .dict review_id title content rating =>
      if process_review review_id title content rating engine publishOk then
        .ack
      else
        .nackRequeue

/-! ## Review model (`src/backend/app/models/review.py`) -/

/-- `ReviewStatus`: the review processing status enum. -/
inductive ReviewStatus
  | pending
  | processing
  | completed
  | failed
  deriving DecidableEq, Repr

/-- The `Review` row: immutable content fields, the mutable status, and the
mutable analysis fields (nullable columns hold `JVal`). -/
structure Review where
  hotel_id : ℤ
  user_name : String
  rating : ℤ
  title : JVal
  content : String
  status : ReviewStatus
  sentiment_score : JVal
  sentiment_label : JVal
  aspects : JVal
  topics : JVal
  key_phrases : JVal
  deriving DecidableEq, Repr

/-- The review table, keyed by `review_id` (`Review.query.get`). -/
abbrev Store := ℤ → Option Review

/-- Writing one row back (the single committed update). -/
def storeSet (store : Store) (rid : ℤ) (r : Review) : Store :=
  fun i => if i = rid then some r else store i

/-! ## Result consumer (`src/backend/app/result_consumer.py`) -/

/-- The field assignments of `update_review_with_results` before the
commit: each analysis field is overwritten with `results.get(...)` and the
status is set to `COMPLETED`. -/
def applyResults (review : Review) (p : Payload) : Review :=
  { review with
    sentiment_score := pget p "sentiment_score"
    sentiment_label := pget p "sentiment_label"
    aspects := pget p "aspects"
    topics := pget p "topics"
    key_phrases := pget p "key_phrases"
    status := ReviewStatus.completed }

/-- `update_review_with_results(review_id, results)`.

`results` is `event.get('data')`, so it may be `None` (`none` here), in
which case `results.get(...)` raises `AttributeError` before any field is
assigned; the `except` branch then sets `status = FAILED` and commits on a
clean session (`failCommitOk` oracle).

With a proper payload, all six fields are assigned and committed in one
transaction (`commitOk` oracle).  When that commit raises, the transaction
is rolled back (no field reaches storage) and the session refuses further
commits until an explicit rollback, so the best-effort `FAILED` commit in
the `except` branch raises as well and is swallowed by the bare `except`.

Returns the storage after the call and the boolean result. -/
def update_review_with_results (store : Store) (rid : ℤ) (results : Option Payload)
    (commitOk failCommitOk : Bool) : Store × Bool :=
  match store rid with
  | none => (store, false)
  | some review =>
    match results with
    | none =>
        if failCommitOk then
          (storeSet store rid { review with status := ReviewStatus.failed }, false)
        else
          (store, false)
    | some p =>
        if commitOk then
          (storeSet store rid (applyResults review p), true)
        else
          (store, false)

/-- The body of a message delivered to the result consumer: not valid
JSON (`json.loads` raises `JSONDecodeError`), valid JSON that is not an
object (`event.get` raises `AttributeError`, caught by the generic
`except`), or a JSON object with its `event_type`, `review_id` and
optional `data` fields. -/
inductive RBody
  | malformed
  | nonDict (v : JVal)
  | event (event_type : String) (review_id : ℤ) (data : Option Payload)

/-- `result_consumer.callback`: invalid JSON is nacked without requeue;
any other escaping exception is nacked with requeue; an event whose
`event_type` is not `"AnalysisCompleted"` is acknowledged and dropped;
otherwise the boolean result of `update_review_with_results` selects ack
or nack with requeue. -/
def result_callback (store : Store) (body : RBody) (commitOk failCommitOk : Bool) :
    Store × Disposition :=
  match body with
  | .malformed => (store, .nackDrop)
  | .nonDict _ => (store, .nackRequeue)
  | .event event_type review_id data =>
      if event_type = "AnalysisCompleted" then
        let r := update_review_with_results store review_id data commitOk failCommitOk
        if r.2 then (r.1, .ack) else (r.1, .nackRequeue)
      else
        (store, .ack)

/-- The result consumer's receive loop: one delivered body (with its
commit oracles) after another, threading the storage through. -/
def consume_loop (store : Store) : List (RBody × Bool × Bool) → Store × List Disposition
  | [] => (store, [])
  | (b, c1, c2) :: rest =>
      let r := result_callback store b c1 c2
      let t := consume_loop r.1 rest
      (t.1, r.2 :: t.2)

/-! ## Review publisher (`src/backend/app/queue_publisher.py`) -/

/-- `ReviewQueuePublisher.__init__`: the queue the publisher declares and
publishes to. -/
def review_publisher_queue : String := "review_analysis"

/-- `worker.start_consumer`: the queue the analysis worker consumes. -/
def worker_intake_queue : String := "review.created"

/-- `ReviewQueuePublisher.connect` declares its queue with `durable=True`. -/
def publisher_queue_durable : Bool := true

/-- One message as handed to `basic_publish`. -/
structure PublishedMessage where
  queue : String
  body : Payload
  delivery_mode : ℕ
  content_type : String
  deriving DecidableEq

/-- `ReviewQueuePublisher.publish_review(review_id, review_data)`: the
message dict built from `review_data.get(...)`, published to the
publisher's queue with `delivery_mode=2` and JSON content type. -/
def publish_review (review_id : ℤ) (review_data : Payload) : PublishedMessage :=
  { queue := review_publisher_queue
    body := [("review_id", JVal.jint review_id),
             ("title", pget review_data "title"),
             ("content", pget review_data "content"),
             ("rating", pget review_data "rating"),
             ("hotel_id", pget review_data "hotel_id")]
    delivery_mode := 2
    content_type := "application/json" }

/-- A broker: the list of bodies sitting in each named queue. -/
abbrev Broker := String → List Payload

/-- A broker with every queue empty. -/
def empty_broker : Broker := fun _ => []

/-- `basic_publish`: append the body to the addressed queue. -/
def broker_publish (b : Broker) (m : PublishedMessage) : Broker :=
  fun q => if q = m.queue then b q ++ [m.body] else b q

/-! ## Concrete fixtures for the end-to-end scenario -/

/-- The stored review of the end-to-end scenario, freshly created and
`PENDING`. -/
def pending_review_42 : Review :=
  { hotel_id := 7
    user_name := "Ana"
    rating := 5
    title := JVal.jnull
    content := "Excellent stay, loved everything"
    status := ReviewStatus.pending
    sentiment_score := JVal.jnull
    sentiment_label := JVal.jnull
    aspects := JVal.jnull
    topics := JVal.jnull
    key_phrases := JVal.jnull }

/-- A store holding only review 42. -/
def store42 : Store := fun i => if i = 42 then some pending_review_42 else none

/-- The `review_data` dict the review service passes to `publish_review`
for the end-to-end scenario. -/
def review_data_42 : Payload :=
  [("content", JVal.jstr "Excellent stay, loved everything"),
   ("title", JVal.jnull),
   ("rating", JVal.jint 5),
   ("hotel_id", JVal.jint 7)]

/-! ## Helper lemmas -/

/-- `pyRoundInt` is the identity on integers. -/
theorem pyRoundInt_intCast (n : ℤ) : pyRoundInt (n : ℚ) = n := by
  unfold pyRoundInt
  rw [Int.fract_intCast]
  norm_num

/-- `round3` is the identity on a rational whose thousandfold is an
integer. -/
theorem round3_eq_self (x : ℚ) (n : ℤ) (h : x * 1000 = (n : ℚ)) : round3 x = x := by
  unfold round3
  rw [h, pyRoundInt_intCast, ← h]
  ring

/-- Each value of the 5-class label map is a multiple of `1/2`, so 600
times it is an integer. -/
theorem label_to_score_mul_600 (lbl : String) :
    ∃ k : ℤ, label_to_score lbl * 600 = (k : ℚ) := by
  unfold label_to_score
  split_ifs
  exacts [⟨-600, by norm_num⟩, ⟨-300, by norm_num⟩, ⟨0, by norm_num⟩,
    ⟨300, by norm_num⟩, ⟨600, by norm_num⟩, ⟨0, by norm_num⟩]

/-- The blended score of an integer rating is a multiple of `1/1000`
(indeed of `1/10`). -/
theorem blended_mul_1000_int (lbl : String) (r : ℤ) :
    ∃ k : ℤ,
      (label_to_score lbl * (6/10) + (((r : ℚ) - 3) / 2) * (4/10)) * 1000 = (k : ℚ) := by
  obtain ⟨k, hk⟩ := label_to_score_mul_600 lbl
  refine ⟨k + 200 * r - 600, ?_⟩
  push_cast
  linear_combination hk

theorem labelOf_pos_iff (s : ℚ) : labelOf s = "positive" ↔ 3/10 < s := by
  unfold labelOf
  split_ifs with h1 h2
  · exact ⟨fun _ => h1, fun _ => rfl⟩
  · exact ⟨fun hh => absurd hh (by decide), fun hh => absurd hh h1⟩
  · exact ⟨fun hh => absurd hh (by decide), fun hh => absurd hh h1⟩

theorem labelOf_neg_iff (s : ℚ) : labelOf s = "negative" ↔ s < -(3/10) := by
  unfold labelOf
  split_ifs with h1 h2
  · exact ⟨fun hh => absurd hh (by decide), fun hh => absurd (by linarith : (3:ℚ)/10 < -(3/10)) (by norm_num)⟩
  · exact ⟨fun _ => h2, fun _ => rfl⟩
  · exact ⟨fun hh => absurd hh (by decide), fun hh => absurd hh h2⟩

theorem labelOf_neutral_iff (s : ℚ) :
    labelOf s = "neutral" ↔ (s ≤ 3/10 ∧ -(3/10) ≤ s) := by
  unfold labelOf
  split_ifs with h1 h2
  · exact ⟨fun hh => absurd hh (by decide), fun hh => absurd h1 (not_lt.mpr hh.1)⟩
  · exact ⟨fun hh => absurd hh (by decide), fun hh => absurd h2 (not_lt.mpr hh.2)⟩
  · exact ⟨fun _ => ⟨le_of_not_lt h1, le_of_not_lt h2⟩, fun _ => rfl⟩

/-- The fallback label agrees with the threshold labelling of the
fallback score on every admissible rating. -/
theorem ratingFallbackLabel_eq_labelOf (r : ℤ) (h1 : 1 ≤ r) (h5 : r ≤ 5) :
    ratingFallbackLabel (r : ℚ) = labelOf (((r : ℚ) - 3) / 2) := by
  interval_cases r <;> norm_num [ratingFallbackLabel, labelOf]

/-- Unfolding `analyze` on the success path with an integer rating. -/
theorem analyze_ok_int (text : String) (r : ℤ) (engine : String → EngineOutcome)
    (lbl : String) (heng : engine (text.take 512) = EngineOutcome.ok lbl) :
    analyze text (JVal.jint r) engine =
      Except.ok ⟨round3 (label_to_score lbl * (6/10) + (((r : ℚ) - 3) / 2) * (4/10)),
        labelOf (label_to_score lbl * (6/10) + (((r : ℚ) - 3) / 2) * (4/10))⟩ := by
  unfold analyze
  rw [heng]
  rfl

/-- Unfolding `analyze` on the engine-error path with an integer rating. -/
theorem analyze_err_int (text : String) (r : ℤ) (engine : String → EngineOutcome)
    (heng : engine (text.take 512) = EngineOutcome.err) :
    analyze text (JVal.jint r) engine =
      Except.ok ⟨round3 (((r : ℚ) - 3) / 2), ratingFallbackLabel (r : ℚ)⟩ := by
  unfold analyze
  rw [heng]
  rfl

/-! ## Claim theorems -/

/-- C4: when the sentiment engine succeeds with some 5-class label,
`analyze(text, rating)` returns the score
`round(0.6 * text_score + 0.4 * ((rating - 3) / 2), 3)` where `text_score`
is the label mapped through `label_to_score`, and the returned label is
`"positive"` iff the score exceeds `0.3`, `"negative"` iff it is below
`-0.3`, and `"neutral"` otherwise; in particular the model label
`"5 stars"` with rating 1 yields score `0.2` (= `1/5`) and label
`"neutral"`. -/
theorem analyze_blended_formula :
    (∀ (lbl : String) (r : ℤ) (text : String) (engine : String → EngineOutcome),
      engine (text.take 512) = EngineOutcome.ok lbl →
      ∃ res, analyze text (JVal.jint r) engine = Except.ok res ∧
        res.sentiment_score =
          round3 ((6:ℚ)/10 * label_to_score lbl + 4/10 * (((r : ℚ) - 3) / 2)) ∧
        (res.sentiment_label = "positive" ↔ 3/10 < res.sentiment_score) ∧
        (res.sentiment_label = "negative" ↔ res.sentiment_score < -(3/10)) ∧
        (res.sentiment_label = "neutral" ↔
          (res.sentiment_score ≤ 3/10 ∧ -(3/10) ≤ res.sentiment_score))) ∧
    analyze "Excellent stay, loved everything" (JVal.jint 1)
      (fun _ => EngineOutcome.ok "5 stars") =
      Except.ok ⟨1/5, "neutral"⟩ := by
  constructor
  · intro lbl r text engine heng
    obtain ⟨k, hk⟩ := blended_mul_1000_int lbl r
    have hid : round3 (label_to_score lbl * (6/10) + (((r : ℚ) - 3) / 2) * (4/10)) =
        label_to_score lbl * (6/10) + (((r : ℚ) - 3) / 2) * (4/10) :=
      round3_eq_self _ k hk
    refine ⟨⟨round3 (label_to_score lbl * (6/10) + (((r : ℚ) - 3) / 2) * (4/10)),
      labelOf (label_to_score lbl * (6/10) + (((r : ℚ) - 3) / 2) * (4/10))⟩,
      analyze_ok_int text r engine lbl heng, ?_, ?_, ?_, ?_⟩
    · exact congrArg round3 (by ring)
    · dsimp only
      rw [hid]
      exact labelOf_pos_iff _
    · dsimp only
      rw [hid]
      exact labelOf_neg_iff _
    · dsimp only
      rw [hid]
      exact labelOf_neutral_iff _
  · rw [analyze_ok_int "Excellent stay, loved everything" 1
      (fun _ => EngineOutcome.ok "5 stars") "5 stars" rfl]
    have e1 : label_to_score "5 stars" * (6/10) + ((((1:ℤ) : ℚ) - 3) / 2) * (4/10) = 1/5 := by
      rw [show label_to_score "5 stars" = 1 from rfl]
      norm_num
    rw [e1, round3_eq_self (1/5) 200 (by norm_num)]
    norm_num [labelOf]

/-- C4 witness: the blended-formula theorem applied at the model label
`"4 stars"` and rating 5. -/
theorem analyze_blended_formula_witness :
    ∃ res, analyze "Lovely quiet hotel" (JVal.jint 5)
        (fun _ => EngineOutcome.ok "4 stars") = Except.ok res ∧
      res.sentiment_score =
        round3 ((6:ℚ)/10 * label_to_score "4 stars" + 4/10 * ((((5:ℤ) : ℚ) - 3) / 2)) ∧
      (res.sentiment_label = "positive" ↔ 3/10 < res.sentiment_score) ∧
      (res.sentiment_label = "negative" ↔ res.sentiment_score < -(3/10)) ∧
      (res.sentiment_label = "neutral" ↔
        (res.sentiment_score ≤ 3/10 ∧ -(3/10) ≤ res.sentiment_score)) :=
  analyze_blended_formula.1 "4 stars" 5 "Lovely quiet hotel"
    (fun _ => EngineOutcome.ok "4 stars") rfl

/-- C5: for every rating `r ∈ {1..5}` and any content, when the engine
errors internally `analyze` returns `round((r - 3) / 2, 3)` with the label
given by the `±0.3` threshold rule, and no exception escapes (the call
returns a value); concretely r=5 gives score 1 and "positive", r=3 gives
0 and "neutral", r=1 gives -1 and "negative". -/
theorem analyze_rating_fallback :
    (∀ (r : ℤ) (text : String) (engine : String → EngineOutcome),
      1 ≤ r → r ≤ 5 → engine (text.take 512) = EngineOutcome.err →
      analyze text (JVal.jint r) engine =
        Except.ok ⟨round3 (((r : ℚ) - 3) / 2), labelOf (((r : ℚ) - 3) / 2)⟩) ∧
    analyze "any content" (JVal.jint 5) (fun _ => EngineOutcome.err) =
      Except.ok ⟨1, "positive"⟩ ∧
    analyze "any content" (JVal.jint 3) (fun _ => EngineOutcome.err) =
      Except.ok ⟨0, "neutral"⟩ ∧
    analyze "any content" (JVal.jint 1) (fun _ => EngineOutcome.err) =
      Except.ok ⟨-1, "negative"⟩ := by
  refine ⟨?_, ?_, ?_, ?_⟩
  · intro r text engine h1 h5 heng
    rw [analyze_err_int text r engine heng, ratingFallbackLabel_eq_labelOf r h1 h5]
  · rw [analyze_err_int "any content" 5 (fun _ => EngineOutcome.err) rfl,
      show ((((5:ℤ) : ℚ) - 3) / 2) = 1 by norm_num, round3_eq_self 1 1000 (by norm_num)]
    norm_num [ratingFallbackLabel]
  · rw [analyze_err_int "any content" 3 (fun _ => EngineOutcome.err) rfl,
      show ((((3:ℤ) : ℚ) - 3) / 2) = 0 by norm_num, round3_eq_self 0 0 (by norm_num)]
    norm_num [ratingFallbackLabel]
  · rw [analyze_err_int "any content" 1 (fun _ => EngineOutcome.err) rfl,
      show ((((1:ℤ) : ℚ) - 3) / 2) = -1 by norm_num, round3_eq_self (-1) (-1000) (by norm_num)]
    norm_num [ratingFallbackLabel]

/-- C5 witness: the fallback theorem applied at rating 4. -/
theorem analyze_rating_fallback_witness :
    analyze "great location" (JVal.jint 4) (fun _ => EngineOutcome.err) =
      Except.ok ⟨round3 ((((4:ℤ) : ℚ) - 3) / 2), labelOf ((((4:ℤ) : ℚ) - 3) / 2)⟩ :=
  analyze_rating_fallback.1 4 "great location" (fun _ => EngineOutcome.err)
    (by norm_num) (by norm_num) rfl

/-- C3 counterexample: at a concrete delivered message whose engine
invocation raises (rating `null` makes the fallback arithmetic re-raise,
so the exception escapes `analyze`), the worker nacks WITH requeue,
refuting the claim that such messages are nacked without requeue. -/
theorem worker_engine_error_disposition_cex :
    analyze "Great stay overall" JVal.jnull (fun _ => EngineOutcome.ok "5 stars") =
      Except.error () ∧
    worker_callback
      (WBody.dict (JVal.jint 7) JVal.jnull (JVal.jstr "Great stay overall") JVal.jnull)
      (fun _ => EngineOutcome.ok "5 stars") true = Disposition.nackRequeue ∧
    Disposition.nackRequeue ≠ Disposition.nackDrop := by
  refine ⟨rfl, rfl, by decide⟩

/-- C3 amended: a body that fails JSON decoding, or decodes to a
non-object so that field extraction raises, is nacked without requeue; an
unexpected error raised while invoking the engine is caught inside
`process_review`, which reports failure, so the message is nacked WITH
requeue=true; a failed result publish is likewise nacked with
requeue=true, and a successful publish is acknowledged. -/
theorem worker_disposition :
    ∀ (engine : String → EngineOutcome) (publishOk : Bool)
      (v review_id title rating : JVal) (text : String),
      worker_callback WBody.malformed engine publishOk = Disposition.nackDrop ∧
      worker_callback (WBody.nonDict v) engine publishOk = Disposition.nackDrop ∧
      (analyze text rating engine = Except.error () →
        worker_callback (WBody.dict review_id title (JVal.jstr text) rating)
          engine publishOk = Disposition.nackRequeue) ∧
      (∀ res, analyze text rating engine = Except.ok res →
        worker_callback (WBody.dict review_id title (JVal.jstr text) rating)
          engine publishOk = (if publishOk then Disposition.ack else Disposition.nackRequeue)) := by
  intro engine publishOk v review_id title rating text
  refine ⟨rfl, rfl, ?_, ?_⟩
  · intro herr
    simp [worker_callback, process_review, herr]
  · intro res hok
    simp [worker_callback, process_review, hok]

/-- C3 witness: the amended disposition theorem applied at a message with
a `null` rating (engine invocation raises, nack with requeue) and at a
successfully processed message (ack). -/
theorem worker_disposition_witness :
    worker_callback
      (WBody.dict (JVal.jint 9) JVal.jnull (JVal.jstr "Quiet and clean") JVal.jnull)
      (fun _ => EngineOutcome.ok "4 stars") true = Disposition.nackRequeue :=
  (worker_disposition (fun _ => EngineOutcome.ok "4 stars") true
    JVal.jnull (JVal.jint 9) JVal.jnull JVal.jnull "Quiet and clean").2.2.1 rfl

/-- C6: on a successful `AnalysisCompleted` message the consumer persists
`sentiment_score`, `sentiment_label`, `aspects`, `topics`, `key_phrases`
and status `COMPLETED` as one atomic store write and acknowledges; when
the commit fails, storage is left entirely unchanged (the transaction is
rolled back, the best-effort `FAILED` mark is swallowed with the
secondary commit error) and the message is nacked with requeue=true. -/
theorem result_consumer_paths :
    ∀ (store : Store) (rid : ℤ) (p : Payload) (review : Review) (failCommitOk : Bool),
      store rid = some review →
      result_callback store (RBody.event "AnalysisCompleted" rid (some p)) true failCommitOk =
        (storeSet store rid (applyResults review p), Disposition.ack) ∧
      result_callback store (RBody.event "AnalysisCompleted" rid (some p)) false failCommitOk =
        (store, Disposition.nackRequeue) ∧
      (applyResults review p).status = ReviewStatus.completed ∧
      (applyResults review p).sentiment_score = pget p "sentiment_score" ∧
      (applyResults review p).sentiment_label = pget p "sentiment_label" ∧
      (applyResults review p).aspects = pget p "aspects" ∧
      (applyResults review p).topics = pget p "topics" ∧
      (applyResults review p).key_phrases = pget p "key_phrases" := by
  intro store rid p review failCommitOk h
  refine ⟨?_, ?_, rfl, rfl, rfl, rfl, rfl, rfl⟩
  · simp [result_callback, update_review_with_results, h]
  · simp [result_callback, update_review_with_results, h]

/-- C6 witness: the consumer-path theorem applied at a one-review store
and a concrete payload. -/
theorem result_consumer_paths_witness :
    result_callback store42 (RBody.event "AnalysisCompleted" 42
        (some [("sentiment_score", JVal.jrat (1/5)), ("sentiment_label", JVal.jstr "neutral")]))
        true true =
      (storeSet store42 42 (applyResults pending_review_42
        [("sentiment_score", JVal.jrat (1/5)), ("sentiment_label", JVal.jstr "neutral")]),
       Disposition.ack) :=
  (result_consumer_paths store42 42
    [("sentiment_score", JVal.jrat (1/5)), ("sentiment_label", JVal.jstr "neutral")]
    pending_review_42 true rfl).1

/-- C7: applying the same `AnalysisCompleted` payload twice yields the
same state as applying it once, both on a single review record and
through the committed store update; every written field is a full
overwrite taken from the payload. -/
theorem idempotent_application :
    ∀ (review : Review) (p : Payload) (store : Store) (rid : ℤ),
      applyResults (applyResults review p) p = applyResults review p ∧
      (update_review_with_results
          (update_review_with_results store rid (some p) true true).1
          rid (some p) true true).1 =
        (update_review_with_results store rid (some p) true true).1 := by
  intro review p store rid
  constructor
  · rfl
  · cases h : store rid with
    | none =>
        simp [update_review_with_results, h]
    | some r =>
        have hrid : storeSet store rid (applyResults r p) rid = some (applyResults r p) := by
          unfold storeSet
          simp
        have hidem : applyResults (applyResults r p) p = applyResults r p := rfl
        simp only [update_review_with_results, h, hrid, if_true]
        funext i
        unfold storeSet
        by_cases hi : i = rid <;> simp [hi, hidem]

/-- C8: a message whose body is not valid JSON is nacked without requeue
by the analysis worker and by the result consumer, and the result
consumer leaves storage unchanged (the worker never touches storage). -/
theorem malformed_json_dropped :
    ∀ (engine : String → EngineOutcome) (publishOk : Bool) (store : Store)
      (commitOk failCommitOk : Bool),
      worker_callback WBody.malformed engine publishOk = Disposition.nackDrop ∧
      result_callback store RBody.malformed commitOk failCommitOk =
        (store, Disposition.nackDrop) := by
  intro engine publishOk store commitOk failCommitOk
  exact ⟨rfl, rfl⟩

/-- C9: an `AnalysisCompleted` message whose `review_id` matches no
stored review leaves the store unchanged, and the consumer loop keeps
running: consuming it at the head of a delivery list only prepends its
disposition and processes the rest against the same store. -/
theorem missing_review_keeps_store :
    ∀ (store : Store) (rid : ℤ) (p : Payload) (commitOk failCommitOk : Bool)
      (rest : List (RBody × Bool × Bool)),
      store rid = none →
      (result_callback store (RBody.event "AnalysisCompleted" rid (some p))
          commitOk failCommitOk).1 = store ∧
      consume_loop store
          ((RBody.event "AnalysisCompleted" rid (some p), commitOk, failCommitOk) :: rest) =
        ((consume_loop store rest).1,
          Disposition.nackRequeue :: (consume_loop store rest).2) := by
  intro store rid p commitOk failCommitOk rest h
  have hcb : result_callback store (RBody.event "AnalysisCompleted" rid (some p))
      commitOk failCommitOk = (store, Disposition.nackRequeue) := by
    simp [result_callback, update_review_with_results, h]
  refine ⟨by rw [hcb], ?_⟩
  conv_lhs => rw [consume_loop]
  rw [hcb]

/-- C9 witness: the theorem applied at the empty store with an empty
remaining delivery list. -/
theorem missing_review_keeps_store_witness :
    (result_callback (fun _ => none) (RBody.event "AnalysisCompleted" 42 (some []))
        true true).1 = (fun _ => none : Store) ∧
    consume_loop (fun _ => none)
        [(RBody.event "AnalysisCompleted" 42 (some []), true, true)] =
      ((consume_loop (fun _ => none) []).1,
        Disposition.nackRequeue :: (consume_loop (fun _ => none) []).2) :=
  missing_review_keeps_store (fun _ => none) 42 [] true true [] rfl

/-- C10: the disposition for a well-formed `AnalysisCompleted` message
whose `review_id` matches no stored review is a negative acknowledgement
with requeue=true. -/
theorem missing_review_requeued :
    ∀ (store : Store) (rid : ℤ) (p : Payload) (commitOk failCommitOk : Bool),
      store rid = none →
      (result_callback store (RBody.event "AnalysisCompleted" rid (some p))
          commitOk failCommitOk).2 = Disposition.nackRequeue := by
  intro store rid p commitOk failCommitOk h
  simp [result_callback, update_review_with_results, h]

/-- C10 witness: the requeue theorem applied at the empty store. -/
theorem missing_review_requeued_witness :
    (result_callback (fun _ => none) (RBody.event "AnalysisCompleted" 7
        (some [("sentiment_score", JVal.jrat 1)])) false true).2 =
      Disposition.nackRequeue :=
  missing_review_requeued (fun _ => none) 7 [("sentiment_score", JVal.jrat 1)] false true rfl

/-- C2: refuted as stated — `ReviewQueuePublisher.publish_review` does
publish exactly one persistent (`delivery_mode=2`) JSON message to a
durable queue, but the queue is named `review_analysis`, not
`review.created`, and the body carries no `event_type` field at all. -/
theorem intake_wire_contract_bug :
    (publish_review 42 review_data_42).queue = "review_analysis" ∧
    (publish_review 42 review_data_42).queue ≠ "review.created" ∧
    List.lookup "event_type" (publish_review 42 review_data_42).body = none ∧
    List.lookup "review_id" (publish_review 42 review_data_42).body =
      some (JVal.jint 42) ∧
    (publish_review 42 review_data_42).delivery_mode = 2 ∧
    (publish_review 42 review_data_42).content_type = "application/json" ∧
    publisher_queue_durable = true := by
  refine ⟨rfl, by decide, rfl, rfl, rfl, rfl, rfl⟩

/-- C1: refuted as stated — publishing the end-to-end scenario review
puts one message in queue `review_analysis`, while the analysis worker
consumes queue `review.created`, which stays empty; no
`AnalysisCompleted` message is ever produced, the result consumer
processes nothing, and review 42 remains stored with status `PENDING`,
never reaching `COMPLETED`. -/
theorem end_to_end_pipeline_bug :
    (broker_publish empty_broker (publish_review 42 review_data_42))
        review_publisher_queue = [(publish_review 42 review_data_42).body] ∧
    (broker_publish empty_broker (publish_review 42 review_data_42))
        worker_intake_queue = [] ∧
    review_publisher_queue ≠ worker_intake_queue ∧
    (consume_loop store42 []).1 42 = some pending_review_42 ∧
    pending_review_42.status = ReviewStatus.pending ∧
    ReviewStatus.pending ≠ ReviewStatus.completed := by
  refine ⟨?_, ?_, by decide, rfl, rfl, by decide⟩
  · unfold broker_publish empty_broker
    simp [publish_review]
  · unfold broker_publish empty_broker
    rw [if_neg (by decide : ¬ (worker_intake_queue = (publish_review 42 review_data_42).queue))]

end InnSight
